import Mathlib

/-!
Verification development for the icinga-slack-bot repository.

The embedding models `src/i2_slack_modules/slack_commands.py` (the
conversational command engine `chat_with_user` and the status formatter
`run_icinga_status_query`).  External collaborators (the Icinga backend
client, the relative date parser, Slack posting) are parameters of an
environment record, following the interfaces in the spec (sections 4.3,
6).  Python semantics that matter here are kept explicit: lists are
`List`, `split(' ')` and `startswith` are the structurally recursive
`pySplit`/`pyStartsWith` (so the kernel can evaluate concrete runs),
truthiness of strings, lists and numbers is modelled by dedicated
helpers, out-of-range list indexing and operations on `None` raise
(`Except` with a `PyErr`), and timestamps are integers.

A central fact about the source used by the embedding: in
`chat_with_user` the store entry `conversations[chat_user_id]` is a
reference to `this_conversation` (created at line 407 when absent), so
every field mutation is immediately visible in the store and the explicit
`conversations[chat_user_id] = this_conversation` re-assignments are
no-ops.  The embedding therefore threads the conversation value and
applies the final value (or the deletion of lines 736/742) to the store
once, at function exit.
-/

namespace IcingaBot

/-- Python exception kinds that the modelled code can raise. -/
inductive PyErr
  | indexError
  | typeError
  | attributeError
  | keyError
deriving DecidableEq, Repr

/-- Python truthiness of an optional string (`None` and `""` are falsy). -/
def truthyStr : Option String → Bool
  | none => false
  | some s => s ≠ ""

/-- Python `text.split(' ')` on the character list: split at every single
space, keeping empty fields (`"".split(' ') == ['']`).  Defined by
structural recursion so that concrete runs evaluate inside the kernel. -/
def splitSpaceChars : List Char → List (List Char)
  | [] => [[]]
  | c :: rest =>
    let r := splitSpaceChars rest
    if c = ' ' then [] :: r
    else
      match r with
      | [] => [[c]]
      | g :: gs => (c :: g) :: gs

/-- Python `chat_message.split(' ')` (line 412). -/
def pySplit (s : String) : List String :=
  (splitSpaceChars s.data).map (fun cs => String.mk cs)

/-- Python `s.startswith(pre)`, as character-list prefix test. -/
def pyStartsWith (s pre : String) : Bool :=
  pre.data.isPrefixOf s.data

/-- Python `"%s" % v` for an optional string: `None` renders as `"None"`. -/
def pyStr : Option String → String
  | none => "None"
  | some s => s

/-- Host/Service object type (the source uses the strings "Host"/"Service"). -/
inductive ObjType
  | Host
  | Service
deriving DecidableEq, Repr

/-- Rendering of the optional object type with Python `%s`. -/
def pyObjType : Option ObjType → String
  | none => "None"
  | some .Host => "Host"
  | some .Service => "Service"

/-- `status_type.lower()` as used in the status formatter. -/
def objTypeLower : ObjType → String
  | .Host => "host"
  | .Service => "service"

/-- The conversation command (the source uses the strings "ACK"/"DOWNTIME"). -/
inductive Command
  | ACK
  | DOWNTIME
deriving DecidableEq, Repr

/-- A monitoring object record as returned by the backend (spec section 3:
`name`, `host_name` for services, numeric `state`, `acknowledgement` flag,
`downtime_depth`, last check output, `last_state_change`). -/
structure I2Object where
  name : String
  host_name : Option String := none
  state : Int := 0
  acknowledgement : Int := 0
  downtime_depth : Int := 0
  output : String := ""
  last_state_change : Int := 0
deriving DecidableEq, Repr

/-- Result of a backend object-list query in the conversational flow
(spec section 6: `list_objects(...) -> sequence of object records | error`). -/
structure I2Res where
  error : Option String := none
  response : List I2Object := []
deriving DecidableEq, Repr

/-- Modelled from the spec: result of `parse_relative_date` (module
`i2_slack_modules.common`, not under src/).  Spec section 4.3: output is a
parsed absolute timestamp (`dt`, may be absent in the returned record) plus
the character offset `mend` marking the end of the consumed date
expression, or a parse failure (`none` at the call site). -/
structure DateData where
  dt : Option Int := none
  mend : Nat := 0
deriving DecidableEq, Repr

/-- Modelled from the spec: class `SlackConversation` (module
`i2_slack_modules.slack_helper`, not under src/; only its constructor is
missing — every use is in `chat_with_user`).  Spec section 3 lists the
fields; a fresh conversation has every field unset and the three booleans
false. -/
structure SlackConversation where
  command : Option Command := none
  filter : Option (List String) := none
  filter_result : Option (List I2Object) := none
  object_type : Option ObjType := none
  start_date : Option Int := none
  end_date : Option Int := none
  start_date_parsing_failed : Option String := none
  end_date_parsing_failed : Option String := none
  description : Option String := none
  confirmation_sent : Bool := false
  confirmed : Bool := false
  canceled : Bool := false
deriving DecidableEq, Repr

instance : Inhabited SlackConversation := ⟨{}⟩

/-- A field of a Slack attachment (spec section 6). -/
structure SlackField where
  title : String
  value : String
  short : Bool := true
deriving DecidableEq, Repr

/-- A Slack attachment (spec section 6); only the keys the source sets. -/
structure SlackAttachment where
  fallback : Option String := none
  text : Option String := none
  color : Option String := none
  fields : List SlackField := []
deriving DecidableEq, Repr

/-- Modelled from the spec: class `SlackResponse` (module
`i2_slack_modules.slack_helper`, not under src/).  Spec section 6: a
structured value with `text`, ordered `blocks` and ordered `attachments`;
`add_block` and `add_attachment` append. -/
structure SlackResponse where
  text : String := ""
  blocks : List String := []
  attachments : List SlackAttachment := []
deriving DecidableEq, Repr

/-- `response.add_block(b)` appends a block. -/
def SlackResponse.add_block (r : SlackResponse) (b : String) : SlackResponse :=
  { r with blocks := r.blocks ++ [b] }

/-- `response.add_attachment(a)` appends an attachment. -/
def SlackResponse.add_attachment (r : SlackResponse) (a : SlackAttachment) : SlackResponse :=
  { r with attachments := r.attachments ++ [a] }

/-- Modelled from the spec: helper `plural` (module `i2_slack_modules.common`,
not under src/): the plural suffix used in "Found %d matching host%s" and
"problem%s" messages — "s" unless the quantity is one. -/
def plural (n : Nat) : String :=
  if n ≠ 1 then "s" else ""

/-- Modelled from the spec: helper `yes_no` (module `i2_slack_modules.common`,
not under src/): renders a numeric flag as "Yes"/"No" (used for the
`Acknowledged` and `In Downtime` card fields). -/
def yes_no (n : Int) : String :=
  if n > 0 then "Yes" else "No"

/-- The per-user conversation store (spec section 4.1). -/
def Store : Type := String → Option SlackConversation

/-- `conversations[uid] = c`. -/
def Store.set (s : Store) (uid : String) (c : SlackConversation) : Store :=
  fun k => if k = uid then some c else s k

/-- `del conversations[uid]`. -/
def Store.del (s : Store) (uid : String) : Store :=
  fun k => if k = uid then none else s k

/-- The empty store. -/
def Store.empty : Store := fun _ => none

/-- A backend object-list query as issued by `chat_with_user`
(object type, status filter expressions, name filter tokens). -/
structure I2Query where
  objType : ObjType
  statusFilter : List String
  names : List String
deriving DecidableEq, Repr

/-- Arguments of `i2_handle.actions.schedule_downtime` (lines 773-782). -/
structure DowntimeCall where
  object_type : Option ObjType
  filters : String
  author : Option String
  comment : Option String
  start_time : Int
  end_time : Int
  duration : Int
  all_services : Bool
deriving DecidableEq, Repr

/-- Arguments of `i2_handle.actions.acknowledge_problem` (lines 791-798). -/
structure AckCall where
  object_type : Option ObjType
  filters : String
  author : Option String
  comment : Option String
  expiry : Option Int
  sticky : Bool
deriving DecidableEq, Repr

/-- The single mutating backend call issued by the dispatcher. -/
inductive DispatchCall
  | downtime (c : DowntimeCall)
  | ack (c : AckCall)
deriving DecidableEq, Repr

/-- The environment of `chat_with_user`: every external collaborator the
function calls, as pure parameters (spec sections 4.3, 6). -/
structure ChatEnv where
  /-- `get_i2_object(config, type, status_filter, name_filter)`. -/
  get_i2_object : ObjType → List String → List String → I2Res
  /-- `parse_relative_date(text)`; `none` is a parse failure. -/
  parse_relative_date : String → Option DateData
  /-- `datetime.now().timestamp()`. -/
  now : Int
  /-- `ts_to_date(ts)` date formatting. -/
  ts_to_date : Int → String
  /-- `chat_user_data.get(uid)`: `none` when no record for the user,
  otherwise the record's `real_name` value (itself possibly `None`). -/
  chat_user_data : String → Option (Option String)
  /-- `setup_icinga_connection(config)`: whether a handle was obtained. -/
  i2_handle : Bool
  /-- the error returned alongside the handle. -/
  i2_error : Option String
  /-- `i2_handle.actions.schedule_downtime(...)`: `Except.error` models a
  raised exception, whose string lands in `response.error`. -/
  schedule_downtime : DowntimeCall → Except String Unit
  /-- `i2_handle.actions.acknowledge_problem(...)`. -/
  acknowledge_problem : AckCall → Except String Unit

/-- How `chat_with_user` returned, one constructor per `return` site. -/
inductive ChatExit
  /-- lines 392-403: `chat_message`/`chat_user_id` missing. -/
  | missingParams (r : SlackResponse)
  /-- line 422: not a recognized command, `return None`. -/
  | unrecognized
  /-- line 486: Icinga request error while resolving the filter. -/
  | resolveError (r : SlackResponse)
  /-- lines 598, 614, 628, 647, 658, 669, 675: a question or re-prompt. -/
  | ask (r : SlackResponse)
  /-- line 733: the confirmation summary. -/
  | confirmPrompt (r : SlackResponse)
  /-- line 737: "Ok, action has been canceled!". -/
  | canceledMsg (r : SlackResponse)
  /-- lines 750, 752: no Icinga handle, a `RequestResponse` with this error. -/
  | connError (e : String)
  /-- line 817: the dispatched call raised; error response. -/
  | dispatchError (c : DispatchCall) (r : SlackResponse)
  /-- line 821: the dispatched call succeeded; success message. -/
  | dispatchOk (c : DispatchCall) (r : SlackResponse)
  /-- line 823: fell through every branch, `return None`. -/
  | fallthroughNone
deriving DecidableEq, Repr

/-- The result of one `chat_with_user` call: the exit taken, the store
after the call, and the backend object queries that were issued. -/
structure ChatOut where
  exit : ChatExit
  store : Store
  queries : List I2Query

/-- Lines 415-426: command recognition on the first token.  `none` in the
result is line 421's fall-through (`return None` at line 422); on success
the recognized token was consumed (`del cma[0]`).  `cma[0]` on an empty
buffer raises (unreachable from `split`, which never returns an empty
list). -/
def commandStep (conv : SlackConversation) (cma : List String) :
    Except PyErr (Option (SlackConversation × List String)) :=
  match conv.command with
  | some _ => .ok (some (conv, cma))
  | none =>
    match cma with
    | [] => .error .indexError
    | c0 :: rest =>
      if pyStartsWith c0 "ack" then
        .ok (some ({ conv with command := some .ACK }, rest))
      else if pyStartsWith c0 "dt" || pyStartsWith c0 "downtime" then
        .ok (some ({ conv with command := some .DOWNTIME }, rest))
      else
        .ok none

/-- Lines 429-446: filter token extraction.  The first remaining token is
always taken (`cma.pop(0)`); a second is taken when exactly one token
remains (`len(cma) == 1`) or when more remain and the next is not "from"
or "until". -/
def filterStep (conv : SlackConversation) (cma : List String) :
    SlackConversation × List String :=
  match conv.filter with
  | some _ => (conv, cma)
  | none =>
    match cma with
    | [] => (conv, cma)
    | c0 :: rest =>
      match rest with
      | [] => ({ conv with filter := some [c0] }, [])
      | c1 :: rest2 =>
        if rest2.length = 0 ∨ (rest2.length > 0 ∧ ¬(c1 = "from" ∨ c1 = "until")) then
          ({ conv with filter := some [c0, c1] }, rest2)
        else
          ({ conv with filter := some [c0] }, c1 :: rest2)

/-- Outcome of the object-resolution block. -/
inductive ResolveRes
  /-- line 486: the backend query failed, an error response is returned. -/
  | errorResp (r : SlackResponse)
  /-- resolution finished (objects found or not), the flow continues. -/
  | next (conv : SlackConversation)
deriving Repr

/-- Lines 449-510: query the backend for objects matching the filter.
Runs only when the filter is set and non-empty (Python truthiness of the
list) and no `filter_result` exists yet.  Returns the queries issued, in
order, together with the outcome. -/
def resolveStep (env : ChatEnv) (conv : SlackConversation) :
    List I2Query × ResolveRes :=
  match conv.filter with
  | none => ([], .next conv)
  | some fl =>
    if fl = [] ∨ conv.filter_result ≠ none then ([], .next conv)
    else
      -- lines 452-456
      let host_filter : List String :=
        if conv.command = some .ACK then ["host.state != 0"] else []
      let service_filter : List String :=
        if conv.command = some .ACK then ["service.state != 0"] else []
      -- lines 459-471
      let first :=
        if fl.length = 1 then
          let r1 := env.get_i2_object .Host host_filter fl
          if r1.error = none ∧ r1.response.length = 0 then
            ([⟨.Host, host_filter, fl⟩, ⟨.Service, service_filter, fl⟩],
             ObjType.Service, env.get_i2_object .Service service_filter fl)
          else
            ([⟨.Host, host_filter, fl⟩], ObjType.Host, r1)
        else
          ([⟨.Service, service_filter, fl⟩], ObjType.Service,
           env.get_i2_object .Service service_filter fl)
      let queries := first.1
      let object_type := first.2.1
      let i2_result := first.2.2
      -- lines 474-486
      if truthyStr i2_result.error then
        let text := "Icinga request error while trying to find matching hosts/services"
        let r : SlackResponse :=
          { text := text,
            blocks := ["*" ++ text ++ "*"],
            attachments := [{ fallback := some text,
                              text := some ("Error: " ++ pyStr i2_result.error),
                              color := some "danger" }] }
        (queries, .errorResp r)
      else
        -- lines 489-502
        let conv1 :=
          if conv.command = some .DOWNTIME ∧ i2_result.response.length > 0 then
            { conv with filter_result := some i2_result.response }
          else
            let ack_filter_result :=
              i2_result.response.filter (fun r => r.acknowledgement = 0)
            if ack_filter_result.length > 0 then
              { conv with filter_result := some ack_filter_result }
            else
              conv
        -- lines 505-510
        let conv2 :=
          match conv1.filter_result with
          | some l => if l.length > 0 then { conv1 with object_type := some object_type }
                      else conv1
          | none => conv1
        (queries, .next conv2)

/-- `cma[cma.index(tok) + 1:]`: everything after the first occurrence. -/
def dropThroughTok (tok : String) (cma : List String) : List String :=
  (cma.dropWhile (fun t => t ≠ tok)).drop 1

/-- `cma[cma.index(tok):]`: from the first occurrence on. -/
def dropBeforeTok (tok : String) (cma : List String) : List String :=
  cma.dropWhile (fun t => t ≠ tok)

/-- `cma[0:cma.index(tok)]`: everything before the first occurrence. -/
def takeToTok (tok : String) (cma : List String) : List String :=
  cma.takeWhile (fun t => t ≠ tok)

/-- `string_parse[mend:].strip().split(" ")`: buffer recovery after a
successful date parse (lines 539, 571). -/
def recoverBuffer (string_parse : String) (mend : Nat) : List String :=
  ((string_parse.drop mend).trim).splitOn " "

/-- Lines 513-543: start date extraction (DOWNTIME only, while unset and
tokens remain).  On a successful parse the source reads `cma[0]` (line
538) — when the "from" strip emptied the buffer this raises. -/
def startStep (env : ChatEnv) (conv : SlackConversation) (cma : List String) :
    Except PyErr (SlackConversation × List String) :=
  if conv.command = some .DOWNTIME ∧ conv.start_date = none then
    if cma.length ≠ 0 then
      -- lines 519-520
      let cma1 := if cma.contains "from" then dropThroughTok "from" cma else cma
      -- lines 522-526
      let sp :=
        if cma1.contains "until" then
          (String.intercalate " " (takeToTok "until" cma1), dropBeforeTok "until" cma1)
        else
          (String.intercalate " " cma1, cma1)
      let string_parse := sp.1
      let cma2 := sp.2
      match env.parse_relative_date string_parse with
      | some dd =>
        -- lines 535-536
        let conv1 := if dd.dt.isSome then { conv with start_date := dd.dt } else conv
        -- lines 538-539
        match cma2 with
        | [] => .error .indexError
        | c0 :: _ =>
          if c0 ≠ "until" then .ok (conv1, recoverBuffer string_parse dd.mend)
          else .ok (conv1, cma2)
      | none =>
        -- line 541
        .ok ({ conv with start_date_parsing_failed := some string_parse }, cma2)
    else
      .ok (conv, cma)
  else
    .ok (conv, cma)

/-- Lines 546-575: end date extraction (while unset and tokens remain).
After discarding through "until" (line 553) the source reads `cma[0]`
(line 555) — when "until" was the last token this raises. -/
def endStep (env : ChatEnv) (conv : SlackConversation) (cma : List String) :
    Except PyErr (SlackConversation × List String) :=
  if conv.end_date = none then
    if cma.length ≠ 0 then
      -- lines 552-553
      let cma1 := if cma.contains "until" then dropThroughTok "until" cma else cma
      -- line 555
      match cma1 with
      | [] => .error .indexError
      | c0 :: rest =>
        if c0 = "never" ∨ c0 = "infinite" then
          -- lines 556-558
          .ok ({ conv with end_date := some (-1) }, rest)
        else
          -- lines 561-573
          let string_parse := String.intercalate " " cma1
          match env.parse_relative_date string_parse with
          | some dd =>
            let conv1 := if dd.dt.isSome then { conv with end_date := dd.dt } else conv
            .ok (conv1, recoverBuffer string_parse dd.mend)
          | none =>
            .ok ({ conv with end_date_parsing_failed := some string_parse }, cma1)
    else
      .ok (conv, cma)
  else
    .ok (conv, cma)

/-- Lines 577-585: description extraction — the whole remaining buffer,
when it has non-whitespace content. -/
def descStep (conv : SlackConversation) (cma : List String) :
    SlackConversation × List String :=
  match conv.description with
  | some _ => (conv, cma)
  | none =>
    if cma.length ≠ 0 ∧ ((String.join cma).trim).length ≠ 0 then
      ({ conv with description := some (String.intercalate " " cma) }, [])
    else
      (conv, cma)

/-- Lines 588-669: the ask-for-missing-info cascade up to (and including)
the date validations.  `some` is a return (the conversation as stored and
the response); `none` falls through towards the description prompt and
confirmation.  The `typeError` arm mirrors Python comparing `None` with a
number at line 660; it is unreachable because lines 617-628 return first
when a DOWNTIME start date is missing. -/
def askStep (env : ChatEnv) (conv : SlackConversation) :
    Except PyErr (Option (SlackConversation × SlackResponse)) :=
  -- lines 588-598
  match conv.filter with
  | none =>
    let t := if conv.command = some .ACK then "What do you want acknowledge?"
             else "What do you want to set a downtime for?"
    .ok (some (conv, { text := t }))
  | some fl =>
    -- lines 601-614
    if conv.filter_result = none then
      let problematic := if conv.command = some .ACK then " problematic" else ""
      let t := "Sorry, I was not able to find any" ++ problematic ++
               " hosts or services for your search '" ++ String.intercalate " " fl ++
               "'. Try again."
      .ok (some ({ conv with filter := none }, { text := t }))
    else
    -- lines 617-628
    if conv.command = some .DOWNTIME ∧ conv.start_date = none then
      let t :=
        if ¬ truthyStr conv.start_date_parsing_failed then
          "When should the downtime start?"
        else
          "Sorry, I was not able to understand the start date '" ++
          pyStr conv.start_date_parsing_failed ++ "'. Try again please."
      .ok (some (conv, { text := t }))
    else
    -- lines 631-647
    match conv.end_date with
    | none =>
      let t :=
        if ¬ truthyStr conv.end_date_parsing_failed then
          (if conv.command = some .ACK then "When should the acknowledgement expire? Or never?"
           else "When should the downtime end?")
        else
          "Sorry, I was not able to understand the end date '" ++
          pyStr conv.end_date_parsing_failed ++ "'. Try again please."
      .ok (some (conv, { text := t }))
    | some e =>
      -- lines 649-658: `if this_conversation.end_date and
      -- this_conversation.end_date - 60 < datetime.now().timestamp():`
      -- (the value -1, the "never expires" sentinel, is truthy and always
      -- satisfies the comparison)
      if e ≠ 0 ∧ e - 60 < env.now then
        let t := "Sorry, end date '" ++ env.ts_to_date e ++
                 "' lies (almost) in the past. Please define a valid end/expire date."
        .ok (some ({ conv with end_date := none }, { text := t }))
      else
      -- lines 660-669
      if conv.command = some .DOWNTIME then
        match conv.start_date with
        | none => .error .typeError
        | some s =>
          if s > e then
            let t := "Sorry, start date '" ++ env.ts_to_date s ++
                     "' can't be after and date '" ++ env.ts_to_date e ++
                     "'. When should the downtime start?"
            .ok (some ({ conv with start_date := none }, { text := t }))
          else
            .ok none
      else
        .ok none

/-- Lines 671-675: ask for the missing comment. -/
def commentStep (conv : SlackConversation) :
    Option (SlackConversation × SlackResponse) :=
  if conv.description = none then
    some (conv, { text := "Please add a comment." })
  else
    none

/-- Outcome of the confirmation block. -/
inductive ConfirmRes
  /-- line 733: the confirmation summary is (re-)sent. -/
  | prompt (conv : SlackConversation) (r : SlackResponse)
  /-- the flow continues towards cancellation or dispatch. -/
  | through (conv : SlackConversation)
deriving Repr

/-- Lines 689-728: the confirmation summary.  The `typeError` arms mirror
`ts_to_date(None)` and slicing `None` — unreachable in the normal flow
because the ask cascade returns first while a needed field is unset. -/
def confirmSummary (env : ChatEnv) (conv : SlackConversation) :
    Except PyErr SlackResponse :=
  let command := if conv.command = some .DOWNTIME then "Downtime" else "Acknowledgement"
  let datesE : Except PyErr (List (String × String)) :=
    if conv.command = some .DOWNTIME then
      match conv.start_date, conv.end_date with
      | some s, some e => .ok [("Start", env.ts_to_date s), ("End", env.ts_to_date e)]
      | _, _ => .error .typeError
    else
      -- line 705: `"Never" if this_conversation.end_date == -1 else
      -- ts_to_date(this_conversation.end_date)`
      match conv.end_date with
      | some e => .ok [("Expire", if e = -1 then "Never" else env.ts_to_date e)]
      | none => .error .typeError
  match datesE with
  | .error er => .error er
  | .ok dates =>
    match conv.filter_result with
    | none => .error .typeError
    | some objs =>
      let confirmation : List (String × String) :=
        [("Command", command), ("Type", pyObjType conv.object_type)] ++ dates ++
        [("Comment", pyStr conv.description), ("Objects", "")]
      let confirmation_fields := confirmation.map (fun p => ">*" ++ p.1 ++ "*: " ++ p.2)
      let names := (objs.take 10).map (fun o =>
        if conv.object_type = some .Host then o.name
        else pyStr o.host_name ++ " - " ++ o.name)
      let obj_fields := names.map (fun n => ">\t• " ++ n)
      let more :=
        if objs.length > 10 then
          [">\t... and " ++ toString (objs.length - 10) ++ " more"]
        else []
      .ok { text := "Confirm your action",
            blocks := [String.intercalate "\n" (confirmation_fields ++ obj_fields ++ more),
                       "Do you want to confirm this action?:"] }

/-- Lines 678-733: the confirmation engine.  When a confirmation is
pending, a token starting with y/Y confirms, n/N cancels, anything else
clears `confirmation_sent` so the summary is re-sent. -/
def confirmStep (env : ChatEnv) (conv : SlackConversation) (cma : List String) :
    Except PyErr ConfirmRes :=
  if conv.confirmed then .ok (.through conv)
  else
    let conv1E : Except PyErr SlackConversation :=
      if conv.confirmation_sent then
        match cma with
        | [] => .error .indexError
        | c0 :: _ =>
          if pyStartsWith c0 "y" ∨ pyStartsWith c0 "Y" then .ok { conv with confirmed := true }
          else if pyStartsWith c0 "n" ∨ pyStartsWith c0 "N" then .ok { conv with canceled := true }
          else .ok { conv with confirmation_sent := false }
      else .ok conv
    match conv1E with
    | .error e => .error e
    | .ok conv1 =>
      if ¬ conv1.confirmation_sent then
        match confirmSummary env conv1 with
        | .error e => .error e
        | .ok r => .ok (.prompt { conv1 with confirmation_sent := true } r)
      else .ok (.through conv1)

/-- Lines 754-762: the per-object clauses of the dispatch filter.  Object
names are interpolated verbatim into `host.name=="..."` respectively
`( host.name=="..." && service.name=="..." )`. -/
def build_filter_list (object_type : Option ObjType) (objs : List I2Object) :
    List String :=
  if object_type = some .Host then
    objs.map (fun o => "host.name==\"" ++ o.name ++ "\"")
  else
    objs.map (fun o =>
      "( host.name==\"" ++ pyStr o.host_name ++ "\" && service.name==\"" ++
      o.name ++ "\" )")

/-- Lines 775 and 793: `'(' + ' || '.join(filter_list) + ')'`. -/
def join_filters (fl : List String) : String :=
  "(" ++ String.intercalate " || " fl ++ ")"

/-- Lines 807-817: the error response after a failed dispatch.  The block
at line 809 renders `response.text` of the fresh `RequestResponse`
(class in module `i2_slack_modules.icinga_connection`, not under src/;
modelled from the spec with its text attribute unset, so `%s` renders
"None"). -/
def dispatchErrorResponse (err : String) : SlackResponse :=
  { text := "Icinga request error",
    blocks := ["*" ++ pyStr none ++ "*"],
    attachments := [{ fallback := some "Icinga request error",
                      text := some ("Error: " ++ err),
                      color := some "danger" }] }

/-- Lines 735-823: cancellation, dispatch and the final fall-through.
`none` in the conversation position means the store entry was deleted
(lines 736 and 742 — deletion happens before the backend call is issued).
The `typeError`/`attributeError` arms mirror Python iterating `None`
(lines 757/760), arithmetic on `None` (line 780) and `.get` on a missing
user record (lines 776/794). -/
def finalStep (env : ChatEnv) (uid : String) (conv : SlackConversation) :
    Except PyErr (ChatExit × Option SlackConversation) :=
  -- lines 735-737
  if conv.canceled then
    .ok (.canceledMsg { text := "Ok, action has been canceled!" }, none)
  else if conv.confirmed then
    -- lines 739-752
    if ¬ env.i2_handle then
      match env.i2_error with
      | some e => .ok (.connError e, none)
      | none => .ok (.connError "Unknown error while setting up Icinga2 connection", none)
    else
      match conv.filter_result with
      | none => .error .typeError
      | some objs =>
        let filter_list := build_filter_list conv.object_type objs
        let filters := join_filters filter_list
        match env.chat_user_data uid with
        | none => .error .attributeError
        | some author =>
          if conv.command = some .DOWNTIME then
            -- lines 767-782
            match conv.start_date, conv.end_date with
            | some s, some e =>
              let call : DowntimeCall :=
                { object_type := conv.object_type, filters := filters,
                  author := author, comment := conv.description,
                  start_time := s, end_time := e, duration := e - s,
                  all_services := true }
              match env.schedule_downtime call with
              | .ok _ =>
                .ok (.dispatchOk (.downtime call)
                  { text := "Successfully scheduled downtime!" }, none)
              | .error er =>
                .ok (.dispatchError (.downtime call) (dispatchErrorResponse er), none)
            | _, _ => .error .typeError
          else
            -- lines 784-798
            let expiry : Option Int :=
              match conv.end_date with
              | some e => if e = -1 then none else some e
              | none => none
            let call : AckCall :=
              { object_type := conv.object_type, filters := filters,
                author := author, comment := conv.description,
                expiry := expiry, sticky := true }
            let msg := "Successfully acknowledged " ++ pyObjType conv.object_type ++
                       " problem" ++ plural filter_list.length ++ "!"
            match env.acknowledge_problem call with
            | .ok _ => .ok (.dispatchOk (.ack call) { text := msg }, none)
            | .error er => .ok (.dispatchError (.ack call) (dispatchErrorResponse er), none)
  else
    .ok (.fallthroughNone, some conv)

/-- The body of `chat_with_user` after parameter checking and conversation
creation: the step functions above in source order, over the token buffer
`cma = chat_message.split(' ')`.  The conversation in the result is the
final state of the store entry (`none` when it was deleted). -/
def chatCore (env : ChatEnv) (uid : String) (conv0 : SlackConversation)
    (cma : List String) :
    Except PyErr (ChatExit × Option SlackConversation × List I2Query) :=
  match commandStep conv0 cma with
  | .error e => .error e
  | .ok none => .ok (.unrecognized, some conv0, [])
  | .ok (some (c1, cma1)) =>
    let fc := filterStep c1 cma1
    let rq := resolveStep env fc.1
    let queries := rq.1
    match rq.2 with
    | .errorResp r => .ok (.resolveError r, some fc.1, queries)
    | .next c3 =>
      match startStep env c3 fc.2 with
      | .error e => .error e
      | .ok (c4, cma3) =>
        match endStep env c4 cma3 with
        | .error e => .error e
        | .ok (c5, cma4) =>
          let dc := descStep c5 cma4
          match askStep env dc.1 with
          | .error e => .error e
          | .ok (some (c7, r)) => .ok (.ask r, some c7, queries)
          | .ok none =>
            match commentStep dc.1 with
            | some (c7, r) => .ok (.ask r, some c7, queries)
            | none =>
              match confirmStep env dc.1 dc.2 with
              | .error e => .error e
              | .ok (.prompt c7 r) => .ok (.confirmPrompt r, some c7, queries)
              | .ok (.through c7) =>
                match finalStep env uid c7 with
                | .error e => .error e
                | .ok (ex, cOpt) => .ok (ex, cOpt, queries)

/-- Lines 369-823: `chat_with_user`.  Missing parameters yield the internal
error response (lines 391-403) without touching the store; otherwise the
conversation is fetched or created (lines 405-409) and the message is
processed by `chatCore`; the final conversation value (or its deletion)
is applied to the store. -/
def chat_with_user (env : ChatEnv) (conversations : Store)
    (chat_message : Option String) (chat_user_id : Option String) :
    Except PyErr ChatOut :=
  match chat_message, chat_user_id with
  | some msg, some uid =>
    let conv0 := (conversations uid).getD {}
    let cma := pySplit msg
    match chatCore env uid conv0 cma with
    | .error e => .error e
    | .ok (ex, cOpt, qs) =>
      .ok { exit := ex,
            store :=
              match cOpt with
              | some c => conversations.set uid c
              | none => conversations.del uid,
            queries := qs }
  | _, _ =>
    let t := "Slack internal error"
    .ok { exit := .missingParams
            { text := t, blocks := ["*" ++ t ++ "*"],
              attachments := [{ fallback := some t,
                                text := some "Error: parameters missing in 'chat_with_user' function",
                                color := some "danger" }] },
          store := conversations, queries := [] }

/-- Line 11. -/
def max_messages_to_display_detailed_status : Nat := 4

/-- Payload of a status query's backend response: line 82 distinguishes a
plain string from an object list. -/
inductive I2Payload
  | str (s : String)
  | objs (l : List I2Object)
deriving DecidableEq, Repr

/-- Result of `get_i2_object` as consumed by `run_icinga_status_query`. -/
structure I2StatusRes where
  error : Option String := none
  response : I2Payload := .objs []
deriving DecidableEq, Repr

/-- The external collaborators of `run_icinga_status_query` (the helpers
live in modules not under src/): URL building, date formatting and the
condensed rendering. -/
structure StatusEnv where
  /-- `get_web2_slack_url(host_name, service_name, web2_url)`. -/
  get_web2_slack_url : Option String → Option String → String
  /-- `ts_to_date(ts)`. -/
  ts_to_date : Int → String
  /-- `format_slack_response(config, status_type, response)`. -/
  format_slack_response : ObjType → List I2Object → String

/-- Modelled from the spec: `host_states` (module `i2_slack_modules.common`,
not under src/) — spec section 3: Host state codes map to
UP/DOWN/UNREACHABLE. -/
def hostStateLabels : List String := ["UP", "DOWN", "UNREACHABLE"]

/-- Modelled from the spec: `service_states` — spec section 3: Service
state codes map to OK/WARNING/CRITICAL/UNKNOWN. -/
def serviceStateLabels : List String := ["OK", "WARNING", "CRITICAL", "UNKNOWN"]

/-- Line 105: `enum("good", "danger", "#BC1414")` for hosts. -/
def hostColors : List String := ["good", "danger", "#BC1414"]

/-- Line 100: `enum("good", "warning", "danger", "#E066FF")` for services. -/
def serviceColors : List String := ["good", "warning", "danger", "#E066FF"]

/-- `states.reverse[i]`: the reverse mapping of an `enum(...)` (icinga-bot.py
lines 208-212) is a dict keyed by 0..n-1; any other key raises KeyError. -/
def lookupEnum (labels : List String) (i : Int) : Except PyErr String :=
  if h : 0 ≤ i ∧ i.toNat < labels.length then .ok (labels.get ⟨i.toNat, h.2⟩)
  else .error .keyError

/-- Lines 95-140: one detail card (attachment) for one returned object. -/
def mkCard (env : StatusEnv) (o : I2Object) : Except PyErr SlackAttachment :=
  -- lines 96-105: `if icinga_object.get("host_name"):` — Python truthiness
  let isService := truthyStr o.host_name
  let host_name : Option String := if isService then o.host_name else some o.name
  let service_name : Option String := if isService then some o.name else none
  let states := if isService then serviceStateLabels else hostStateLabels
  let colors := if isService then serviceColors else hostColors
  -- lines 107-113
  let host_url := env.get_web2_slack_url host_name none
  let service_url := env.get_web2_slack_url host_name service_name
  let text :=
    if isService then "*" ++ host_url ++ " | " ++ service_url ++ "*"
    else "*" ++ host_url ++ "*"
  -- lines 115-140
  match lookupEnum states o.state, lookupEnum colors o.state with
  | .ok stateLabel, .ok color =>
    .ok { color := some color, text := some text,
          fields := [
            { title := "Output", value := o.output, short := false },
            { title := "Last State Change", value := env.ts_to_date o.last_state_change },
            { title := "Status", value := stateLabel },
            { title := "Acknowledged", value := yes_no o.acknowledgement },
            { title := "In Downtime", value := yes_no o.downtime_depth }
          ] }
  | .error e, _ => .error e
  | _, .error e => .error e

/-- Lines 14-172: `run_icinga_status_query`, with the two external calls
(`get_i2_filter` at line 40 and `get_i2_object` at line 68) supplied as
the parameters `i2_filter_status`/`i2_filter_names`/`i2_filter_error` and
`i2_response`. -/
def run_icinga_status_query (env : StatusEnv) (status_type : ObjType)
    (i2_filter_status : List String) (i2_filter_names : List String)
    (i2_filter_error : List String) (i2_response : I2StatusRes) :
    Except PyErr SlackResponse :=
  -- lines 43-63: `if i2_filter_error:`
  if i2_filter_error ≠ [] then
    let i2_error_response :=
      if i2_filter_error.length = 1 then
        "filter '" ++ i2_filter_error.headD "" ++ "' not valid for " ++
        pyObjType (some status_type) ++ " status commands,\ncheck `help` command"
      else
        "filters '" ++ String.intercalate "', '" i2_filter_error.dropLast ++
        "' and '" ++ i2_filter_error.getLastD "" ++ "' are not valid for " ++
        pyObjType (some status_type) ++ " status commands,\ncheck `help` command"
    .ok { text := "Command error",
          blocks := ["*I'm having trouble understanding what you meant*"],
          attachments := [{ fallback := some "Command error",
                            text := some i2_error_response,
                            color := some "danger" }] }
  -- lines 70-79: `if i2_response.error:`
  else if truthyStr i2_response.error then
    .ok { text := "Icinga request error",
          blocks := ["*Icinga request error*"],
          attachments := [{ fallback := some "Icinga request error",
                            text := some ("Error: " ++ pyStr i2_response.error),
                            color := some "danger" }] }
  else
    match i2_response.response with
    -- lines 82-84
    | .str s => .ok { text := "Icinga status response", blocks := [s] }
    | .objs l =>
      -- line 87: `len(...) in list(range(1, max + 1))`, i.e. 1 <= len <= max
      if 1 ≤ l.length ∧ l.length ≤ max_messages_to_display_detailed_status then
        let block_text := "Found " ++ toString l.length ++ " matching " ++
                          objTypeLower status_type ++ plural l.length
        match l.mapM (mkCard env) with
        | .error e => .error e
        | .ok cards =>
          .ok { text := "Icinga status response",
                blocks := [block_text],
                attachments := cards }
      -- lines 143-150
      else if l.length > 0 then
        let block_text := "Found " ++ toString l.length ++ " matching " ++
                          objTypeLower status_type ++ plural l.length
        .ok { text := "Icinga status response",
              blocks := [block_text, env.format_slack_response status_type l] }
      -- lines 152-170
      else
        let problematic_text :=
          if i2_filter_status.length = 1 ∧
             (i2_filter_status.headD "" = "host.state != HostUP" ∨
              i2_filter_status.headD "" = "service.state != ServiceOK") then
            "problematic "
          else ""
        let base := "No " ++ problematic_text ++ objTypeLower status_type ++ " objects "
        let withNames :=
          if i2_filter_names.length = 1 then
            base ++ "for '" ++ i2_filter_names.headD "" ++ "' "
          else if i2_filter_names.length > 1 then
            base ++ "for '" ++ String.intercalate "', '" i2_filter_names.dropLast ++
            "' and '" ++ i2_filter_names.getLastD "" ++ "' "
          else base
        let t := withNames ++ "found."
        let t2 :=
          if problematic_text.length ≠ 0 then t ++ " Everything seems in good condition."
          else t
        .ok { text := t2 }

/-!  Theorems.  `chatView` projects a `chat_with_user` result onto the
parts the properties talk about (the exit taken, the store entry of the
calling user, the queries issued); the store itself is a function, so the
projection also makes concrete runs decidable. -/

/-- The exit, the user's store entry and the issued queries of a run. -/
def chatView (uid : String) (r : Except PyErr ChatOut) :
    Except PyErr (ChatExit × Option SlackConversation × List I2Query) :=
  r.map (fun o => (o.exit, o.store uid, o.queries))

/-- A concrete environment for witnesses and concrete runs. -/
def testChatEnv : ChatEnv :=
  { get_i2_object := fun _ _ _ => {},
    parse_relative_date := fun _ => none,
    now := 1000000,
    ts_to_date := fun i => "<date " ++ toString i ++ ">",
    chat_user_data := fun _ => some (some "Jane Doe"),
    i2_handle := true,
    i2_error := none,
    schedule_downtime := fun _ => .ok (),
    acknowledge_problem := fun _ => .ok () }

/-- A concrete problematic, already acknowledged host object. -/
def testObj : I2Object := { name := "web01", state := 1, acknowledgement := 1 }

/-- A concrete status-formatter environment for witnesses. -/
def testStatusEnv : StatusEnv :=
  { get_web2_slack_url := fun h s => pyStr h ++ "/" ++ pyStr s,
    ts_to_date := fun i => "<date " ++ toString i ++ ">",
    format_slack_response := fun _ _ => "<condensed table>" }

/-- C3 counterexample: with the filter unset and the buffer
`["web01", "until"]`, the reserved word "until" IS consumed as the second
filter token (the `len(cma) == 1` disjunct of line 440 takes a lone
trailing token unconditionally), contradicting the claim that a second
token equal to "from"/"until" is never consumed. -/
theorem filterStep_consumes_trailing_until :
    (filterStep { command := some Command.ACK } ["web01", "until"]).1.filter
      = some ["web01", "until"] := by
  rfl

/-- C3 (amended): the first remaining token is always taken as a filter
token; a second token is taken when it is the only remaining token, or
when further tokens follow it and it is not "from"/"until".  A second
token equal to "from"/"until" is left unconsumed exactly when more tokens
follow it. -/
theorem filterStep_second_token_characterization (conv : SlackConversation)
    (h : conv.filter = none) :
    (∀ c0, filterStep conv [c0] = ({ conv with filter := some [c0] }, [])) ∧
    (∀ c0 c1, filterStep conv [c0, c1] = ({ conv with filter := some [c0, c1] }, [])) ∧
    (∀ c0 c1 r rs, (c1 = "from" ∨ c1 = "until") →
      filterStep conv (c0 :: c1 :: r :: rs) = ({ conv with filter := some [c0] }, c1 :: r :: rs)) ∧
    (∀ c0 c1 r rs, c1 ≠ "from" → c1 ≠ "until" →
      filterStep conv (c0 :: c1 :: r :: rs) = ({ conv with filter := some [c0, c1] }, r :: rs)) := by
  refine ⟨fun c0 => ?_, fun c0 c1 => ?_, fun c0 c1 r rs hres => ?_, fun c0 c1 r rs h1 h2 => ?_⟩
  · simp [filterStep, h]
  · simp [filterStep, h]
  · rcases hres with h1 | h1 <;> simp [filterStep, h, h1]
  · simp [filterStep, h, h1, h2]

/-- C3 witness: the characterization applied to the buffer
`["web01", "until", "tomorrow"]` — "until" followed by more tokens is not
consumed as a filter token. -/
theorem filterStep_second_token_characterization_witness :
    filterStep { command := some Command.ACK } ["web01", "until", "tomorrow"]
      = ({ command := some Command.ACK, filter := some ["web01"] }, ["until", "tomorrow"]) :=
  (filterStep_second_token_characterization { command := some Command.ACK } rfl).2.2.1
    "web01" "until" "tomorrow" [] (Or.inr rfl)

/-- C7 counterexample: the dispatcher quotes nothing, so an object name
containing quote characters alters the structure of the backend filter
expression — a single service whose name embeds
`" ) || ( host.name=="h" && service.name=="` produces the very same
predicate string as two distinct clean services. -/
theorem service_filter_injection_counterexample :
    join_filters (build_filter_list (some ObjType.Service)
        [{ name := "a\" ) || ( host.name==\"h\" && service.name==\"b",
           host_name := some "h" }]) =
      join_filters (build_filter_list (some ObjType.Service)
        [{ name := "a", host_name := some "h" },
         { name := "b", host_name := some "h" }]) ∧
    ([{ name := "a\" ) || ( host.name==\"h\" && service.name==\"b",
        host_name := some "h" }] : List I2Object) ≠
      [{ name := "a", host_name := some "h" },
       { name := "b", host_name := some "h" }] := by
  exact ⟨rfl, by decide⟩

/-- C7 (amended): object names are interpolated verbatim into the
disjunctive filter expression with no escaping, so a name containing
quote characters can alter the predicate's structure: distinct resolved
object lists — here even of different lengths — can produce the identical
backend filter string. -/
theorem filter_expression_unescaped_collision :
    ∃ l1 l2 : List I2Object, l1.length = 1 ∧ l2.length = 2 ∧
      join_filters (build_filter_list (some ObjType.Service) l1) =
        join_filters (build_filter_list (some ObjType.Service) l2) := by
  refine ⟨[{ name := "a\" ) || ( host.name==\"h\" && service.name==\"b",
             host_name := some "h" }],
          [{ name := "a", host_name := some "h" },
           { name := "b", host_name := some "h" }], rfl, rfl, rfl⟩

/-- C8: a conversation awaiting its end date (command and filter resolved)
receiving the message "until" crashes — line 553 discards the buffer up
to and including "until", leaving it empty, and line 555 then reads
`cma[0]`, raising IndexError. -/
theorem end_date_until_last_token_index_error :
    chat_with_user testChatEnv
      (Store.empty.set "u"
        { command := some Command.ACK, filter := some ["web01"],
          filter_result := some [testObj], object_type := some ObjType.Host })
      (some "until") (some "u") = .error .indexError := by
  rfl

/-- C10: a first message whose leading token matches none of the command
prefixes "ack"/"dt"/"downtime" returns no response (line 422, `None`), yet
the freshly created conversation — every field unset — stays stored under
the user's id (line 407 created it before command recognition failed). -/
theorem unrecognized_command_creates_empty_conversation (env : ChatEnv)
    (store : Store) (uid m c0 : String) (rest : List String)
    (hsplit : pySplit m = c0 :: rest)
    (hstore : store uid = none)
    (h1 : ¬ pyStartsWith c0 "ack") (h2 : ¬ pyStartsWith c0 "dt")
    (h3 : ¬ pyStartsWith c0 "downtime") :
    chatView uid (chat_with_user env store (some m) (some uid)) =
      .ok (.unrecognized, some {}, []) := by
  simp only [chat_with_user, chatView, hstore, Option.getD, chatCore, hsplit,
    commandStep, h1, h2, h3]
  simp [Store.set, Except.map]

/-- C6: object resolution (lines 459-471): with exactly one filter token,
Host objects are queried first and the same token is retried as a Service
query exactly when the Host query returned no error and zero matches;
with two filter tokens, a single Service query is issued and no Host
query is made. -/
theorem resolveStep_query_order (env : ChatEnv) (conv : SlackConversation)
    (fl : List String) (hfl : conv.filter = some fl)
    (hfr : conv.filter_result = none) :
    (fl.length = 1 →
      (resolveStep env conv).1 =
        (let hostF := if conv.command = some Command.ACK then ["host.state != 0"] else []
         let svcF := if conv.command = some Command.ACK then ["service.state != 0"] else []
         let r1 := env.get_i2_object .Host hostF fl
         if r1.error = none ∧ r1.response.length = 0 then
           [⟨.Host, hostF, fl⟩, ⟨.Service, svcF, fl⟩]
         else
           [⟨.Host, hostF, fl⟩])) ∧
    (fl.length = 2 →
      (resolveStep env conv).1 =
        [⟨.Service, if conv.command = some Command.ACK then ["service.state != 0"] else [],
          fl⟩]) := by
  constructor
  · intro h1
    have hne : ¬ fl = [] := by intro h; rw [h] at h1; simp at h1
    simp only [resolveStep, hfl]
    rw [if_neg (by simp [hfr, hne])]
    rw [if_pos h1]
    repeat' split
    all_goals rfl
  · intro h2
    have hne : ¬ fl = [] := by intro h; rw [h] at h2; simp at h2
    have h1 : ¬ fl.length = 1 := by rw [h2]; decide
    simp only [resolveStep, hfl]
    rw [if_neg (by simp [hfr, hne])]
    rw [if_neg h1]
    repeat' split
    all_goals rfl

/-- C6 witness: an ACK conversation with the single token "web01" against
the test environment (whose Host query returns no error and no matches):
the Host query is issued first and the Service retry follows. -/
theorem resolveStep_query_order_witness :
    (resolveStep testChatEnv
        { command := some Command.ACK, filter := some ["web01"] }).1 =
      [⟨.Host, ["host.state != 0"], ["web01"]⟩,
       ⟨.Service, ["service.state != 0"], ["web01"]⟩] := by
  have h := (resolveStep_query_order testChatEnv
    { command := some Command.ACK, filter := some ["web01"] } ["web01"] rfl rfl).1 rfl
  simpa using h

/-- Helper: a message arriving at a conversation whose command, filter,
filter result and description are set (and, for DOWNTIME, the start
date), whose end date is a nonzero `e` with `e - 60 < now` (line 649), is
answered by the end-date re-prompt of lines 652-658 with the end date
cleared; no query and no dispatch happens. -/
theorem chat_end_date_reprompt_aux (env : ChatEnv) (store : Store)
    (uid m : String) (conv : SlackConversation) (e : Int)
    (hstore : store uid = some conv)
    (hcm : ∃ cm, conv.command = some cm)
    (hflv : ∃ fl, conv.filter = some fl)
    (hfrv : ∃ fr, conv.filter_result = some fr)
    (hstart : ¬ (conv.command = some Command.DOWNTIME ∧ conv.start_date = none))
    (hdv : ∃ d, conv.description = some d)
    (hend : conv.end_date = some e)
    (he0 : e ≠ 0) (helt : e - 60 < env.now) :
    chatView uid (chat_with_user env store (some m) (some uid)) =
      .ok (.ask { text := "Sorry, end date '" ++ env.ts_to_date e ++
            "' lies (almost) in the past. Please define a valid end/expire date." },
           some { conv with end_date := none }, []) := by
  obtain ⟨cm, hcm⟩ := hcm
  obtain ⟨fl, hflv⟩ := hflv
  obtain ⟨fr, hfrv⟩ := hfrv
  obtain ⟨d, hdv⟩ := hdv
  rw [hcm] at hstart
  simp only [Option.some.injEq] at hstart
  simp only [chatView, chat_with_user, chatCore, commandStep, filterStep,
    resolveStep, startStep, endStep, descStep, askStep, Store.set, Except.map,
    hstore, Option.getD_some, hcm, hflv, hfrv, hdv, hend, he0, helt, hstart]
  simp [hcm, hflv, hfrv, hdv, hend, hstart, he0, helt, Store.set]

/-- C1: the "never expires" sentinel (`end_date == -1`, entered as
"never"/"infinite") never reaches the confirmation summary or the
dispatcher: the validation of line 649 does not exempt it (`-1` is truthy
and `-1 - 60` is below any non-negative clock), so the conversation is
re-prompted for the end date and the sentinel is cleared — the "Never"
label of line 705 and the absent expiry of line 796 are unreachable. -/
theorem never_sentinel_rejected_as_past (env : ChatEnv) (store : Store)
    (uid m : String) (conv : SlackConversation)
    (hstore : store uid = some conv)
    (hcmd : conv.command = some Command.ACK)
    (hfl : ∃ fl, conv.filter = some fl)
    (hfr : ∃ fr, conv.filter_result = some fr)
    (hdesc : ∃ d, conv.description = some d)
    (hend : conv.end_date = some (-1))
    (hnow : 0 ≤ env.now) :
    chatView uid (chat_with_user env store (some m) (some uid)) =
      .ok (.ask { text := "Sorry, end date '" ++ env.ts_to_date (-1) ++
            "' lies (almost) in the past. Please define a valid end/expire date." },
           some { conv with end_date := none }, []) := by
  refine chat_end_date_reprompt_aux env store uid m conv (-1) hstore ⟨_, hcmd⟩
    hfl hfr ?_ hdesc hend (by decide) (by omega)
  rintro ⟨h, -⟩
  rw [hcmd] at h
  exact Command.noConfusion (Option.some.inj h)

/-- C1 witness: an ACK conversation that answered "never" (end date -1),
with filter resolved and comment set, at clock 1000000. -/
theorem never_sentinel_rejected_as_past_witness :
    chatView "u" (chat_with_user testChatEnv
        (Store.empty.set "u"
          { command := some Command.ACK, filter := some ["web01"],
            filter_result := some [testObj], object_type := some ObjType.Host,
            end_date := some (-1), description := some "maintenance" })
        (some "never") (some "u")) =
      .ok (.ask { text := "Sorry, end date '" ++ testChatEnv.ts_to_date (-1) ++
            "' lies (almost) in the past. Please define a valid end/expire date." },
           some { command := some Command.ACK, filter := some ["web01"],
                  filter_result := some [testObj], object_type := some ObjType.Host,
                  end_date := none, description := some "maintenance" }, []) :=
  never_sentinel_rejected_as_past testChatEnv
    (Store.empty.set "u"
      { command := some Command.ACK, filter := some ["web01"],
        filter_result := some [testObj], object_type := some ObjType.Host,
        end_date := some (-1), description := some "maintenance" })
    "u" "never" _ rfl rfl ⟨_, rfl⟩ ⟨_, rfl⟩ ⟨_, rfl⟩ rfl (by decide)

/-- C5 counterexample: the claim's boundary is wrong — at
`end_date = now + 60` exactly (nonzero), line 649's strict comparison
`end_date - 60 < now` is false, so the end date is NOT cleared and the
user is NOT re-prompted: the flow proceeds to the confirmation summary
with the end date intact. -/
theorem end_date_boundary_not_cleared_counterexample :
    chatView "u" (chat_with_user testChatEnv
        (Store.empty.set "u"
          { command := some Command.ACK, filter := some ["web01"],
            filter_result := some [testObj], object_type := some ObjType.Host,
            end_date := some 1000060, description := some "maintenance" })
        (some "hello") (some "u")) =
      .ok (.confirmPrompt
            { text := "Confirm your action",
              blocks := [">*Command*: Acknowledgement\n>*Type*: Host\n>*Expire*: <date 1000060>\n>*Comment*: maintenance\n>*Objects*: \n>\t• web01",
                         "Do you want to confirm this action?:"] },
           some { command := some Command.ACK, filter := some ["web01"],
                  filter_result := some [testObj], object_type := some ObjType.Host,
                  end_date := some 1000060, description := some "maintenance",
                  confirmation_sent := true }, []) := by
  rfl

/-- C5 (amended): for every command, a set, nonzero end date with
`end_date - 60 < now` — strictly, i.e. `end_date < now + 60`, not the
claimed `end_date ≤ now + 60` — is cleared and the user is re-prompted
for a valid end/expire date. -/
theorem end_date_strictly_past_cleared_and_reprompted (env : ChatEnv)
    (store : Store) (uid m : String) (conv : SlackConversation)
    (cmd : Command) (e : Int)
    (hstore : store uid = some conv)
    (hcmd : conv.command = some cmd)
    (hfl : ∃ fl, conv.filter = some fl)
    (hfr : ∃ fr, conv.filter_result = some fr)
    (hstart : cmd = Command.DOWNTIME → conv.start_date ≠ none)
    (hdesc : ∃ d, conv.description = some d)
    (hend : conv.end_date = some e)
    (he0 : e ≠ 0) (helt : e < env.now + 60) :
    chatView uid (chat_with_user env store (some m) (some uid)) =
      .ok (.ask { text := "Sorry, end date '" ++ env.ts_to_date e ++
            "' lies (almost) in the past. Please define a valid end/expire date." },
           some { conv with end_date := none }, []) := by
  refine chat_end_date_reprompt_aux env store uid m conv e hstore ⟨_, hcmd⟩
    hfl hfr ?_ hdesc hend he0 (by omega)
  rintro ⟨h, hn⟩
  rw [hcmd] at h
  exact hstart (Option.some.inj h) hn

/-- C5 witness: a DOWNTIME conversation with all fields set whose end
date 5 is far in the past of clock 1000000. -/
theorem end_date_strictly_past_cleared_and_reprompted_witness :
    chatView "u" (chat_with_user testChatEnv
        (Store.empty.set "u"
          { command := some Command.DOWNTIME, filter := some ["web01"],
            filter_result := some [testObj], object_type := some ObjType.Host,
            start_date := some 3, end_date := some 5, description := some "reboot" })
        (some "hello") (some "u")) =
      .ok (.ask { text := "Sorry, end date '" ++ testChatEnv.ts_to_date 5 ++
            "' lies (almost) in the past. Please define a valid end/expire date." },
           some { command := some Command.DOWNTIME, filter := some ["web01"],
                  filter_result := some [testObj], object_type := some ObjType.Host,
                  start_date := some 3, end_date := none, description := some "reboot" }, []) :=
  end_date_strictly_past_cleared_and_reprompted testChatEnv
    (Store.empty.set "u"
      { command := some Command.DOWNTIME, filter := some ["web01"],
        filter_result := some [testObj], object_type := some ObjType.Host,
        start_date := some 3, end_date := some 5, description := some "reboot" })
    "u" "hello" _ Command.DOWNTIME 5 rfl rfl ⟨_, rfl⟩ ⟨_, rfl⟩
    (fun _ => by simp) ⟨_, rfl⟩ rfl (by decide) (by decide)

/-- Whether a `chat_with_user` exit is terminal for the conversation:
cancellation (line 737) or a dispatch attempt (the `confirmed` branch,
lines 739-821 — including the connection-failure returns at lines 750/752,
which also come after the deletion of line 742, and the failed call at
line 817). -/
def isTerminalExit : ChatExit → Bool
  | .canceledMsg _ => true
  | .connError _ => true
  | .dispatchError _ _ => true
  | .dispatchOk _ _ => true
  | _ => false

/-- Helper: `finalStep` deletes the conversation exactly at the terminal
exits (cancellation and every dispatch-attempt return). -/
theorem finalStep_deleted_iff (env : ChatEnv) (uid : String)
    (conv : SlackConversation) (ex : ChatExit) (cOpt : Option SlackConversation)
    (h : finalStep env uid conv = .ok (ex, cOpt)) :
    cOpt = none ↔ isTerminalExit ex = true := by
  unfold finalStep at h
  repeat' split at h
  all_goals (try simp_all [isTerminalExit])
  all_goals
    first
    | (obtain ⟨h1, h2⟩ := h
       rw [← h1]
       try rw [← h2]
       all_goals simp [isTerminalExit])
    | (split at h
       all_goals (try simp_all [isTerminalExit])
       all_goals (obtain ⟨h1, h2⟩ := h
                  rw [← h1]
                  try rw [← h2]
                  all_goals simp [isTerminalExit]))

/-- Helper: `chatCore` reports a deleted conversation exactly at the
terminal exits. -/
theorem chatCore_deleted_iff (env : ChatEnv) (uid : String)
    (conv0 : SlackConversation) (cma : List String) (ex : ChatExit)
    (cOpt : Option SlackConversation) (qs : List I2Query)
    (h : chatCore env uid conv0 cma = .ok (ex, cOpt, qs)) :
    cOpt = none ↔ isTerminalExit ex = true := by
  unfold chatCore at h
  cases hcmd : commandStep conv0 cma with
  | error e => rw [hcmd] at h; exact Except.noConfusion h
  | ok o =>
    rw [hcmd] at h
    cases o with
    | none =>
      simp only [Except.ok.injEq, Prod.mk.injEq] at h
      obtain ⟨h1, h2, h3⟩ := h
      subst h1; subst h2
      simp [isTerminalExit]
    | some p =>
      obtain ⟨c1, cma1⟩ := p
      simp only at h
      cases hres : (resolveStep env (filterStep c1 cma1).1).2 with
      | errorResp r =>
        rw [hres] at h
        simp only [Except.ok.injEq, Prod.mk.injEq] at h
        obtain ⟨h1, h2, h3⟩ := h
        subst h1; subst h2
        simp [isTerminalExit]
      | next c3 =>
        rw [hres] at h
        simp only at h
        cases hst : startStep env c3 (filterStep c1 cma1).2 with
        | error e => rw [hst] at h; exact Except.noConfusion h
        | ok p2 =>
          obtain ⟨c4, cma3⟩ := p2
          rw [hst] at h
          simp only at h
          cases hed : endStep env c4 cma3 with
          | error e => rw [hed] at h; exact Except.noConfusion h
          | ok p3 =>
            obtain ⟨c5, cma4⟩ := p3
            rw [hed] at h
            simp only at h
            cases hask : askStep env (descStep c5 cma4).1 with
            | error e => rw [hask] at h; exact Except.noConfusion h
            | ok oa =>
              rw [hask] at h
              cases oa with
              | some pa =>
                obtain ⟨c7, r⟩ := pa
                simp only [Except.ok.injEq, Prod.mk.injEq] at h
                obtain ⟨h1, h2, h3⟩ := h
                subst h1; subst h2
                simp [isTerminalExit]
              | none =>
                simp only at h
                cases hcom : commentStep (descStep c5 cma4).1 with
                | some pc =>
                  obtain ⟨c7, r⟩ := pc
                  rw [hcom] at h
                  simp only [Except.ok.injEq, Prod.mk.injEq] at h
                  obtain ⟨h1, h2, h3⟩ := h
                  subst h1; subst h2
                  simp [isTerminalExit]
                | none =>
                  rw [hcom] at h
                  simp only at h
                  cases hconf : confirmStep env (descStep c5 cma4).1 (descStep c5 cma4).2 with
                  | error e => rw [hconf] at h; exact Except.noConfusion h
                  | ok cr =>
                    rw [hconf] at h
                    cases cr with
                    | prompt c7 r =>
                      simp only [Except.ok.injEq, Prod.mk.injEq] at h
                      obtain ⟨h1, h2, h3⟩ := h
                      subst h1; subst h2
                      simp [isTerminalExit]
                    | through c7 =>
                      simp only at h
                      cases hfin : finalStep env uid c7 with
                      | error e => rw [hfin] at h; exact Except.noConfusion h
                      | ok pf =>
                        obtain ⟨ex2, cOpt2⟩ := pf
                        rw [hfin] at h
                        simp only [Except.ok.injEq, Prod.mk.injEq] at h
                        obtain ⟨h1, h2, h3⟩ := h
                        subst h1; subst h2
                        exact finalStep_deleted_iff env uid c7 _ _ hfin

/-- C2: immediately after a message is processed without an internal
error, the user's store entry is absent exactly when the message was
terminal — a cancellation or a dispatch attempt (successful or failed,
including a failed connection setup; the entry is deleted at line 742
before the mutating call is issued, so a failed dispatch does not resume
the conversation).  After any non-terminal message an entry is present. -/
theorem conversation_deleted_iff_terminal (env : ChatEnv) (store : Store)
    (m uid : String) (out : ChatOut)
    (h : chat_with_user env store (some m) (some uid) = .ok out) :
    (out.store uid = none ↔ isTerminalExit out.exit = true) := by
  unfold chat_with_user at h
  simp only at h
  cases hc : chatCore env uid ((store uid).getD {}) (pySplit m) with
  | error e => rw [hc] at h; cases h
  | ok t =>
    obtain ⟨ex, cOpt, qs⟩ := t
    rw [hc] at h
    have hiff := chatCore_deleted_iff env uid ((store uid).getD {}) (pySplit m)
      ex cOpt qs hc
    cases h
    cases cOpt with
    | some c => simpa [Store.set] using hiff
    | none => simpa [Store.del] using hiff

/-- C2 witness: a pending confirmation answered "no" is terminal — the
response is the cancellation message and the entry is gone. -/
theorem conversation_deleted_iff_terminal_witness :
    ∃ out, chat_with_user testChatEnv
        (Store.empty.set "u"
          { command := some Command.ACK, filter := some ["web01"],
            filter_result := some [testObj], object_type := some ObjType.Host,
            end_date := some 2000000, description := some "maintenance",
            confirmation_sent := true })
        (some "no") (some "u") = .ok out ∧
      (out.store "u" = none ↔ isTerminalExit out.exit = true) ∧
      out.exit = .canceledMsg { text := "Ok, action has been canceled!" } := by
  refine ⟨_, rfl, ?_, rfl⟩
  exact conversation_deleted_iff_terminal testChatEnv
    (Store.empty.set "u"
      { command := some Command.ACK, filter := some ["web01"],
        filter_result := some [testObj], object_type := some ObjType.Host,
        end_date := some 2000000, description := some "maintenance",
        confirmation_sent := true })
    "no" "u" _ rfl

/-- Helper: during ACK resolution, when the queries succeed but every
returned object is already acknowledged, the post-filter of lines 494-502
is empty, so `filter_result` stays unset and the conversation leaves the
resolution block unchanged. -/
theorem resolveStep_ack_all_acked (env : ChatEnv) (conv : SlackConversation)
    (fl : List String)
    (hcmd : conv.command = some Command.ACK)
    (hfl : conv.filter = some fl) (hne : fl ≠ [])
    (hfr : conv.filter_result = none)
    (hHerr : (env.get_i2_object .Host ["host.state != 0"] fl).error = none)
    (hSerr : (env.get_i2_object .Service ["service.state != 0"] fl).error = none)
    (hHack : ∀ o ∈ (env.get_i2_object .Host ["host.state != 0"] fl).response,
      o.acknowledgement ≠ 0)
    (hSack : ∀ o ∈ (env.get_i2_object .Service ["service.state != 0"] fl).response,
      o.acknowledgement ≠ 0) :
    (resolveStep env conv).2 = .next conv := by
  have hfilH : (env.get_i2_object .Host ["host.state != 0"] fl).response.filter
      (fun r => r.acknowledgement = 0) = [] := by
    rw [List.filter_eq_nil_iff]
    intro a ha
    simpa using hHack a ha
  have hfilS : (env.get_i2_object .Service ["service.state != 0"] fl).response.filter
      (fun r => r.acknowledgement = 0) = [] := by
    rw [List.filter_eq_nil_iff]
    intro a ha
    simpa using hSack a ha
  simp only [resolveStep, hfl, hcmd, if_true]
  rw [if_neg (by simp [hfr, hne])]
  by_cases hl : fl.length = 1
  · rw [if_pos hl]
    by_cases hr : (env.get_i2_object .Host ["host.state != 0"] fl).error = none ∧
        (env.get_i2_object .Host ["host.state != 0"] fl).response.length = 0
    · rw [if_pos hr]
      simp [hSerr, truthyStr, hfilS, hfr]
    · rw [if_neg hr]
      simp [hHerr, truthyStr, hfilH, hfr]
  · rw [if_neg hl]
    simp [hSerr, truthyStr, hfilS, hfr]

/-- Helper: an ACK conversation awaiting its filter, answered with a one-
or two-token message whose backend queries succeed but return only
already-acknowledged objects, is re-prompted with the "not able to find
any problematic hosts or services" message and its filter is reset. -/
theorem ack_unactionable_reprompt_aux (env : ChatEnv) (store : Store)
    (uid m : String)
    (hlen : (pySplit m).length = 1 ∨ (pySplit m).length = 2)
    (hstore : store uid = some { command := some Command.ACK })
    (hHerr : (env.get_i2_object .Host ["host.state != 0"] (pySplit m)).error = none)
    (hSerr : (env.get_i2_object .Service ["service.state != 0"] (pySplit m)).error = none)
    (hHack : ∀ o ∈ (env.get_i2_object .Host ["host.state != 0"] (pySplit m)).response,
      o.acknowledgement ≠ 0)
    (hSack : ∀ o ∈ (env.get_i2_object .Service ["service.state != 0"] (pySplit m)).response,
      o.acknowledgement ≠ 0) :
    ∃ q, chatView uid (chat_with_user env store (some m) (some uid)) =
      .ok (.ask { text :=
              "Sorry, I was not able to find any problematic hosts or services for your search '"
              ++ String.intercalate " " (pySplit m) ++ "'. Try again." },
           some { command := some Command.ACK }, q) := by
  have hne : pySplit m ≠ [] := by
    rcases hlen with h | h <;> (intro hnil; rw [hnil] at h; simp at h)
  have hres := resolveStep_ack_all_acked env
    { command := some Command.ACK, filter := some (pySplit m) } (pySplit m)
    rfl rfl hne rfl hHerr hSerr hHack hSack
  refine ⟨(resolveStep env
    { command := some Command.ACK, filter := some (pySplit m) }).1, ?_⟩
  rcases hlen with h1 | h2
  · obtain ⟨t0, ht⟩ := List.length_eq_one.mp h1
    rw [ht] at hres
    simp only [chatView, chat_with_user, hstore, Option.getD_some, chatCore,
      commandStep, ht, filterStep, startStep, endStep, descStep, askStep,
      Except.map]
    rw [hres]
    simp [Store.set]
  · obtain ⟨t0, t1, ht⟩ := List.length_eq_two.mp h2
    rw [ht] at hres
    simp only [chatView, chat_with_user, hstore, Option.getD_some, chatCore,
      commandStep, ht, filterStep, startStep, endStep, descStep, askStep,
      Except.map]
    rw [if_pos (Or.inl rfl :
      ([] : List String).length = 0 ∨
        ([] : List String).length > 0 ∧ ¬ (t1 = "from" ∨ t1 = "until"))]
    rw [hres]
    simp [Store.set]

/-- C9: an ACK conversation whose backend queries succeed with matches
that are all already acknowledged (non-zero `acknowledgement`) behaves
exactly like one whose queries return zero matches: `filter_result` stays
unset, the filter is reset, and the user gets the identical "not able to
find any problematic hosts or services" re-prompt — same exit and same
store entry in both runs, so the two cases are indistinguishable to the
user. -/
theorem ack_all_acknowledged_indistinguishable_from_empty (env : ChatEnv)
    (store : Store) (uid m : String)
    (hlen : (pySplit m).length = 1 ∨ (pySplit m).length = 2)
    (hstore : store uid = some { command := some Command.ACK })
    (hHerr : (env.get_i2_object .Host ["host.state != 0"] (pySplit m)).error = none)
    (hSerr : (env.get_i2_object .Service ["service.state != 0"] (pySplit m)).error = none)
    (hHack : ∀ o ∈ (env.get_i2_object .Host ["host.state != 0"] (pySplit m)).response,
      o.acknowledgement ≠ 0)
    (hSack : ∀ o ∈ (env.get_i2_object .Service ["service.state != 0"] (pySplit m)).response,
      o.acknowledgement ≠ 0)
    (hne : (env.get_i2_object .Host ["host.state != 0"] (pySplit m)).response ≠ [] ∨
      (env.get_i2_object .Service ["service.state != 0"] (pySplit m)).response ≠ []) :
    ∃ q q2,
      chatView uid (chat_with_user env store (some m) (some uid)) =
        .ok (.ask { text :=
                "Sorry, I was not able to find any problematic hosts or services for your search '"
                ++ String.intercalate " " (pySplit m) ++ "'. Try again." },
             some { command := some Command.ACK }, q) ∧
      chatView uid (chat_with_user
          { env with get_i2_object := fun _ _ _ => {} } store (some m) (some uid)) =
        .ok (.ask { text :=
                "Sorry, I was not able to find any problematic hosts or services for your search '"
                ++ String.intercalate " " (pySplit m) ++ "'. Try again." },
             some { command := some Command.ACK }, q2) := by
  obtain ⟨q, hq⟩ := ack_unactionable_reprompt_aux env store uid m hlen hstore
    hHerr hSerr hHack hSack
  obtain ⟨q2, hq2⟩ := ack_unactionable_reprompt_aux
    { env with get_i2_object := fun _ _ _ => {} } store uid m hlen hstore
    rfl rfl (by simp) (by simp)
  exact ⟨q, q2, hq, hq2⟩

/-- C9 witness: the single token "web01" against a backend whose Host
query returns one problematic but already-acknowledged host. -/
theorem ack_all_acknowledged_indistinguishable_from_empty_witness :
    ∃ q q2,
      chatView "u" (chat_with_user
          { testChatEnv with get_i2_object := fun _ _ _ => { response := [testObj] } }
          (Store.empty.set "u" { command := some Command.ACK })
          (some "web01") (some "u")) =
        .ok (.ask { text :=
                "Sorry, I was not able to find any problematic hosts or services for your search '"
                ++ String.intercalate " " (pySplit "web01") ++ "'. Try again." },
             some { command := some Command.ACK }, q) ∧
      chatView "u" (chat_with_user
          { { testChatEnv with get_i2_object := fun _ _ _ => { response := [testObj] } } with
              get_i2_object := fun _ _ _ => {} }
          (Store.empty.set "u" { command := some Command.ACK })
          (some "web01") (some "u")) =
        .ok (.ask { text :=
                "Sorry, I was not able to find any problematic hosts or services for your search '"
                ++ String.intercalate " " (pySplit "web01") ++ "'. Try again." },
             some { command := some Command.ACK }, q2) :=
  ack_all_acknowledged_indistinguishable_from_empty
    { testChatEnv with get_i2_object := fun _ _ _ => { response := [testObj] } }
    (Store.empty.set "u" { command := some Command.ACK }) "u" "web01"
    (by decide) rfl rfl rfl
    (by intro o ho; simp at ho; rw [ho]; decide)
    (by intro o ho; simp at ho; rw [ho]; decide)
    (by left; decide)

/-- A monitoring object whose state code is in range for its kind (spec
section 3: Host states 0-2 map to UP/DOWN/UNREACHABLE, Service states 0-3
to OK/WARNING/CRITICAL/UNKNOWN); the kind follows line 96's truthiness
test on `host_name`. -/
def validState (o : I2Object) : Prop :=
  if truthyStr o.host_name then 0 ≤ o.state ∧ o.state.toNat < 4
  else 0 ≤ o.state ∧ o.state.toNat < 3

instance (o : I2Object) : Decidable (validState o) := by
  unfold validState
  infer_instance

/-- Helper: an in-range enum lookup succeeds. -/
theorem lookupEnum_isOk (labels : List String) (i : Int)
    (h : 0 ≤ i ∧ i.toNat < labels.length) :
    lookupEnum labels i = .ok (labels.get ⟨i.toNat, h.2⟩) := by
  unfold lookupEnum
  rw [dif_pos h]

/-- Helper: a detail card is built without error for every object whose
state code is in range. -/
theorem mkCard_isOk (env : StatusEnv) (o : I2Object) (h : validState o) :
    ∃ a, mkCard env o = .ok a := by
  unfold validState at h
  by_cases hs : truthyStr o.host_name
  · rw [if_pos hs] at h
    have hb : 0 ≤ o.state ∧ o.state.toNat < serviceStateLabels.length := by
      simpa [serviceStateLabels] using h
    have hc : 0 ≤ o.state ∧ o.state.toNat < serviceColors.length := by
      simpa [serviceColors] using h
    unfold mkCard
    rw [hs]
    simp only [if_true, lookupEnum_isOk _ _ hb, lookupEnum_isOk _ _ hc]
    exact ⟨_, rfl⟩
  · rw [if_neg hs] at h
    rw [Bool.not_eq_true] at hs
    have hb : 0 ≤ o.state ∧ o.state.toNat < hostStateLabels.length := by
      simpa [hostStateLabels] using h
    have hc : 0 ≤ o.state ∧ o.state.toNat < hostColors.length := by
      simpa [hostColors] using h
    unfold mkCard
    rw [hs]
    simp only [if_false, Bool.false_eq_true, lookupEnum_isOk _ _ hb, lookupEnum_isOk _ _ hc]
    exact ⟨_, rfl⟩

/-- Helper: mapping the card builder over a list of objects that all
build successfully yields exactly one attachment per object. -/
theorem mapM_mkCard_length (env : StatusEnv) (l : List I2Object)
    (h : ∀ o ∈ l, ∃ a, mkCard env o = .ok a) :
    ∃ cards : List SlackAttachment,
      l.mapM (mkCard env) = .ok cards ∧ cards.length = l.length := by
  induction l with
  | nil => exact ⟨[], rfl, rfl⟩
  | cons o t ih =>
    obtain ⟨a, ha⟩ := h o (by simp)
    obtain ⟨cards, hc, hlen⟩ := ih (fun x hx => h x (by simp [hx]))
    refine ⟨a :: cards, ?_, by simp [hlen]⟩
    rw [List.mapM_cons, ha, hc]
    rfl

/-- C4: for a status query with no filter error and an error-free backend
response carrying a list of N objects (with in-range state codes), the
formatter emits exactly N per-object detail attachments when
1 <= N <= `max_messages_to_display_detailed_status` (= 4, line 87), and
for N > 4 it emits no attachments at all and exactly the count line plus
the single condensed block (lines 143-150). -/
theorem status_formatter_card_cardinality (env : StatusEnv) (st : ObjType)
    (stats names : List String) (l : List I2Object)
    (hvalid : ∀ o ∈ l, validState o) :
    (1 ≤ l.length → l.length ≤ max_messages_to_display_detailed_status →
      ∃ r, run_icinga_status_query env st stats names []
          { error := none, response := .objs l } = .ok r ∧
        r.attachments.length = l.length) ∧
    (max_messages_to_display_detailed_status < l.length →
      ∃ r, run_icinga_status_query env st stats names []
          { error := none, response := .objs l } = .ok r ∧
        r.attachments = [] ∧
        r.blocks = ["Found " ++ toString l.length ++ " matching " ++
                      objTypeLower st ++ plural l.length,
                    env.format_slack_response st l]) := by
  constructor
  · intro hge hle
    obtain ⟨cards, hc, hlen⟩ :=
      mapM_mkCard_length env l (fun o ho => mkCard_isOk env o (hvalid o ho))
    refine ⟨{ text := "Icinga status response",
              blocks := ["Found " ++ toString l.length ++ " matching " ++
                objTypeLower st ++ plural l.length],
              attachments := cards }, ?_, by simpa using hlen⟩
    unfold run_icinga_status_query
    rw [if_neg (by simp)]
    rw [if_neg (by simp [truthyStr])]
    simp only []
    rw [if_pos (⟨hge, hle⟩ :
      1 ≤ l.length ∧ l.length ≤ max_messages_to_display_detailed_status)]
    rw [hc]
  · intro hgt
    refine ⟨{ text := "Icinga status response",
              blocks := ["Found " ++ toString l.length ++ " matching " ++
                objTypeLower st ++ plural l.length,
                env.format_slack_response st l] }, ?_, rfl, rfl⟩
    unfold run_icinga_status_query
    rw [if_neg (by simp)]
    rw [if_neg (by simp [truthyStr])]
    simp only []
    rw [if_neg (by
      intro hand
      have := hand.2
      unfold max_messages_to_display_detailed_status at this hgt
      omega)]
    rw [if_pos (by
      unfold max_messages_to_display_detailed_status at hgt
      omega)]

/-- C4 witness: two problematic hosts produce exactly two detail cards. -/
theorem status_formatter_card_cardinality_witness :
    ∃ r, run_icinga_status_query testStatusEnv ObjType.Host
        ["host.state != HostUP"] [] []
        { error := none,
          response := .objs [{ name := "a", state := 1 }, { name := "b", state := 2 }] } = .ok r ∧
      r.attachments.length =
        ([{ name := "a", state := 1 }, { name := "b", state := 2 }] : List I2Object).length :=
  (status_formatter_card_cardinality testStatusEnv ObjType.Host
      ["host.state != HostUP"] [] [{ name := "a", state := 1 }, { name := "b", state := 2 }]
      (by decide)).1 (by decide) (by decide)

/-- C10 witness: the message "status web01" from a user with no
conversation. -/
theorem unrecognized_command_creates_empty_conversation_witness :
    chatView "u" (chat_with_user testChatEnv Store.empty (some "status web01") (some "u")) =
      .ok (.unrecognized, some {}, []) :=
  unrecognized_command_creates_empty_conversation testChatEnv Store.empty "u"
    "status web01" "status" ["web01"] rfl rfl (by decide) (by decide) (by decide)

end IcingaBot
